import Mathlib

/-!
Verification development for the real-time relay and device-session subsystem
of the pothole-edge-ai backend.

The embedding models, directly from the JavaScript source:
- the Socket.IO handlers of `backend/server.js` (registerDevice, watchDevice,
  liveStream, getActiveDevices, disconnect);
- the variant `liveStream` handler that also persists detections
  (the second server file, here `p4LiveStream`);
- the HTTP fallback routes of `backend/routes/live.js`
  (POST /api/live/stream, GET /api/live/devices, GET /api/live/status);
- the detection-record construction and the mongoose pre-save hook of
  `backend/models/PotholeDetection.js`.

Modelling conventions:
- JavaScript `Map`s become association lists (`alGet`/`alSet`/`alDel`/`alUpdate`),
  preserving insertion order and in-place replacement exactly as `Map.set` does.
- A possibly-`undefined` string value is `Option String`; the JS `a || b`
  fallback (which also treats the empty string as falsy) is `jsOrS`.
  Map keys are `Option String` because `Map.set(undefined, v)` is legal in JS
  and occurs when no device identifier is available.
- Timestamps (`new Date()`, `Date.now()`) are `Nat` milliseconds supplied as a
  `now` argument to every handler; within one handler invocation all calls to
  the clock return the same `now`.
- The opaque encoded-image payload is represented by its byte size (`Bytes`);
  the relay never inspects the payload content.
- External nondeterminism (`Math.random` suffixes, Mongo-generated `_id`s) is
  supplied by oracle functions `rnd`, `oid` indexed by loop position.
- An outbound Socket.IO emission is an `Emit` with an explicit target
  (`io.to(room)`, `socket.broadcast`, `io.emit`, `socket.emit`); `deliveredTo`
  resolves a target against the connected-socket table.
-/

/-- Association-list lookup, mirroring `Map.get` / `Map.has`. -/
def alGet {α β : Type} [DecidableEq α] : List (α × β) → α → Option β
  | [], _ => none
  | (k, v) :: rest, a => if k = a then some v else alGet rest a

/-- Association-list insertion/replacement, mirroring `Map.set`:
replaces in place when the key is present, appends otherwise. -/
def alSet {α β : Type} [DecidableEq α] : List (α × β) → α → β → List (α × β)
  | [], a, b => [(a, b)]
  | (k, v) :: rest, a, b =>
    if k = a then (a, b) :: rest else (k, v) :: alSet rest a b

/-- Association-list deletion, mirroring `Map.delete`. -/
def alDel {α β : Type} [DecidableEq α] : List (α × β) → α → List (α × β)
  | [], _ => []
  | (k, v) :: rest, a =>
    if k = a then alDel rest a else (k, v) :: alDel rest a

/-- In-place mutation of the value stored under a key, mirroring JS field
assignment on the object returned by `Map.get` (e.g. `m.get(k).lastSeen = t`).
A no-op when the key is absent. -/
def alUpdate {α β : Type} [DecidableEq α] : List (α × β) → α → (β → β) → List (α × β)
  | [], _, _ => []
  | (k, v) :: rest, a, f =>
    if k = a then (k, f v) :: alUpdate rest a f
    else (k, v) :: alUpdate rest a f

/-- Number of entries stored under a key. -/
def countKey {α β : Type} [DecidableEq α] (l : List (α × β)) (a : α) : Nat :=
  l.countP fun p => decide (p.1 = a)

/-- JS `a || b` on possibly-undefined strings: `undefined` and `""` are falsy. -/
def jsOrS : Option String → Option String → Option String
  | some s, b => if s = "" then b else some s
  | none, b => b

/-- JS `a || d` producing a string, `undefined` and `""` falsy. -/
def jsOrStr : Option String → String → String
  | some s, d => if s = "" then d else s
  | none, d => d

/-- JS `a || d` on a possibly-undefined number: `undefined` and `0` are falsy. -/
def jsOrN : Option Nat → Nat → Nat
  | some t, d => if t = 0 then d else t
  | none, d => d

/-- String interpolation of a possibly-undefined value, as in a JS template
literal: an `undefined` device identifier prints as "undefined". -/
def keyStr : Option String → String
  | some s => s
  | none => "undefined"

/-- GPS coordinates. Coordinates are modelled as integers; the relay and the
persistence pipeline treat them opaquely apart from zero/nonzero truthiness
and string formatting. -/
structure Gps where
  latitude : Int
  longitude : Int
deriving DecidableEq

/-- Bounding region of a detection; carried opaquely by the relay. -/
structure BBox where
  x : Option Int
  y : Option Int
  width : Option Int
  height : Option Int
deriving DecidableEq

/-- Opaque encoded-image payload, represented by its byte size; no handler
inspects the content. -/
structure Bytes where
  size : Nat
deriving DecidableEq

/-- One hazard observation embedded in a frame, as sent by the producer. -/
structure Detection where
  type : Option String
  severity : Option String
  confidence : Option Nat
  boundingBox : Option BBox
deriving DecidableEq

/-- The inbound `liveStream` message body / POST /api/live/stream body. -/
structure StreamData where
  deviceId : Option String
  frame : Option Bytes
  detections : Option (List Detection)
  gps : Option Gps
  stats : Option String
  timestamp : Option Nat
deriving DecidableEq

/-- A cached frame: the stream data plus the server receipt timestamp
(`{ ...data, receivedAt: new Date() }`). -/
structure CachedFrame where
  data : StreamData
  receivedAt : Nat
deriving DecidableEq

/-- One entry of the `activeDevices` map. `socketId` is optional because the
HTTP fallback creates entries without one. `status` is the opaque telemetry
blob. -/
structure DeviceInfo where
  socketId : Option Nat
  connectedAt : Nat
  lastSeen : Nat
  status : Option String
deriving DecidableEq

/-- Per-socket state: the `socket.deviceId` property set by `registerDevice`,
and the rooms the socket has joined. -/
structure SocketSt where
  deviceId : Option String
  rooms : List String
deriving DecidableEq

/-- The mutable server state shared by all handlers. -/
structure ServerState where
  activeDevices : List (Option String × DeviceInfo)
  latestFrames : List (Option String × CachedFrame)
  sockets : List (Nat × SocketSt)
deriving DecidableEq

/-- Entry of the `activeDevices` reply to the socket `getActiveDevices`
request, and of GET /api/live/status (`{ deviceId, ...value }`). -/
structure DeviceEntry where
  deviceId : Option String
  socketId : Option Nat
  connectedAt : Nat
  lastSeen : Nat
  status : Option String
deriving DecidableEq

/-- Entry of the GET /api/live/devices reply, which adds the `isActive`
annotation computed from the 30-second window. -/
structure DevicesRouteEntry where
  deviceId : Option String
  socketId : Option Nat
  connectedAt : Nat
  lastSeen : Nat
  isActive : Bool
  status : Option String
deriving DecidableEq

/-- Payload of the `liveDetections` emission; `dbIds` is present only in the
persisting server variant after successful saves. -/
structure LiveDetsPayload where
  deviceId : Option String
  detections : List Detection
  gps : Option Gps
  timestamp : Option Nat
  dbIds : Option (List String)
deriving DecidableEq

/-- Payload of an outbound emission. -/
inductive Payload where
  | frameData : StreamData → Payload
  | cached : CachedFrame → Payload
  | liveDets : LiveDetsPayload → Payload
  | deviceEvent : String → Nat → Payload
  | deviceList : List DeviceEntry → Payload
deriving DecidableEq

/-- Target of an outbound emission: `io.to(room).emit`, `socket.broadcast.emit`
(everyone except the sender), `io.emit` (everyone), `socket.emit` (one
socket). -/
inductive EmitTarget where
  | room : String → EmitTarget
  | broadcastFrom : Nat → EmitTarget
  | all : EmitTarget
  | sock : Nat → EmitTarget
deriving DecidableEq

/-- One outbound Socket.IO emission. -/
structure Emit where
  target : EmitTarget
  event : String
  payload : Payload
deriving DecidableEq

/-- Whether socket `w` receives emission `e`, given the connected-socket
table. -/
def deliveredTo (socks : List (Nat × SocketSt)) (e : Emit) (w : Nat) : Bool :=
  match e.target with
  | .room r =>
    match alGet socks w with
    | some s => s.rooms.contains r
    | none => false
  | .broadcastFrom sender => (alGet socks w).isSome && decide (w ≠ sender)
  | .all => (alGet socks w).isSome
  | .sock t => decide (w = t)

/-- `socket.join(room)` (idempotent). -/
def addRoom (rooms : List String) (r : String) : List String :=
  if rooms.contains r then rooms else rooms ++ [r]

/-- The `socket.deviceId` property of a connected socket. -/
def socketDeviceId (st : ServerState) (sid : Nat) : Option String :=
  (alGet st.sockets sid).bind (·.deviceId)

/-- `socket.on('registerDevice')`: joins `device-` room, sets
`socket.deviceId`, overwrites the `activeDevices` entry, notifies everyone. -/
def registerDevice (st : ServerState) (sid : Nat) (d : String) (now : Nat) :
    ServerState × List Emit :=
  let socks := alUpdate st.sockets sid fun s =>
    { s with deviceId := some d, rooms := addRoom s.rooms ("device-" ++ d) }
  let ad := alSet st.activeDevices (some d)
    { socketId := some sid, connectedAt := now, lastSeen := now, status := none }
  ({ st with sockets := socks, activeDevices := ad },
   [⟨.all, "deviceConnected", .deviceEvent d now⟩])

/-- `socket.on('watchDevice')`: joins the `watch-` room; if a frame for the
device is cached, emits it to the requesting socket only. -/
def watchDevice (st : ServerState) (sid : Nat) (d : String) :
    ServerState × List Emit :=
  let socks := alUpdate st.sockets sid fun s =>
    { s with rooms := addRoom s.rooms ("watch-" ++ d) }
  let emits :=
    match alGet st.latestFrames (some d) with
    | some cf => [⟨.sock sid, "liveStream", .cached cf⟩]
    | none => []
  ({ st with sockets := socks }, emits)

/-- The key a `liveStream` message is processed under:
`data.deviceId || socket.deviceId`. -/
def liveStreamKey (st : ServerState) (sid : Nat) (data : StreamData) :
    Option String :=
  jsOrS data.deviceId (socketDeviceId st sid)

/-- `socket.on('liveStream')` of `backend/server.js`: touches `lastSeen` when
the device is registered, caches the frame unconditionally, relays to the
watch room and to every other socket, and (when detections are present)
broadcasts a `liveDetections` event. No validation is performed. -/
def liveStream (st : ServerState) (sid : Nat) (data : StreamData) (now : Nat) :
    ServerState × List Emit :=
  let key := liveStreamKey st sid data
  let ad :=
    if (alGet st.activeDevices key).isSome then
      alUpdate st.activeDevices key fun i => { i with lastSeen := now }
    else st.activeDevices
  let lf := alSet st.latestFrames key ⟨data, now⟩
  let emits :=
    [⟨.room ("watch-" ++ keyStr key), "liveStream", .frameData data⟩,
     ⟨.broadcastFrom sid, "liveStream", .frameData data⟩]
    ++ (match data.detections with
        | some l =>
          if l.isEmpty then []
          else [⟨.broadcastFrom sid, "liveDetections",
                  .liveDets ⟨key, l, data.gps, data.timestamp, none⟩⟩]
        | none => [])
  ({ st with activeDevices := ad, latestFrames := lf }, emits)

/-- The device list built by the socket `getActiveDevices` handler
(`{ deviceId: key, ...value }` for every map entry, no liveness filter). -/
def activeDevicesPayload (st : ServerState) : List DeviceEntry :=
  st.activeDevices.map fun p =>
    ⟨p.1, p.2.socketId, p.2.connectedAt, p.2.lastSeen, p.2.status⟩

/-- `socket.on('getActiveDevices')`: replies to the requesting socket with all
registry entries. -/
def getActiveDevices (st : ServerState) (sid : Nat) : List Emit :=
  [⟨.sock sid, "activeDevices", .deviceList (activeDevicesPayload st)⟩]

/-- `socket.on('disconnect')`: when the socket had registered a device id,
deletes that id's registry entry and cached frame and notifies everyone;
always removes the socket. -/
def disconnect (st : ServerState) (sid : Nat) (now : Nat) :
    ServerState × List Emit :=
  match socketDeviceId st sid with
  | some d =>
    ({ st with activeDevices := alDel st.activeDevices (some d),
               latestFrames := alDel st.latestFrames (some d),
               sockets := alDel st.sockets sid },
     [⟨.all, "deviceDisconnected", .deviceEvent d now⟩])
  | none => ({ st with sockets := alDel st.sockets sid }, [])

/-- The `streamData` object built by POST /api/live/stream: optional fields
defaulted (`detections || []`, `timestamp || new Date().toISOString()`).
The JS `gps || {}` and `stats || {}` empty-object defaults are modelled as the
original optional value, as nothing downstream distinguishes them. -/
def normalizeStreamData (body : StreamData) (now : Nat) : StreamData :=
  { deviceId := body.deviceId, frame := body.frame,
    detections := some (body.detections.getD []),
    gps := body.gps, stats := body.stats,
    timestamp := some (jsOrN body.timestamp now) }

/-- HTTP response of POST /api/live/stream. -/
structure HttpResp where
  success : Bool
  detectionCount : Nat
deriving DecidableEq

/-- POST /api/live/stream (`backend/routes/live.js`): caches the normalized
body under its own `deviceId` (possibly undefined), creates or refreshes the
registry entry, broadcasts `liveStream` (and `liveDetections` when present) to
every socket via `io.emit`, and replies success. No validation is performed. -/
def postStream (st : ServerState) (body : StreamData) (now : Nat) :
    ServerState × List Emit × HttpResp :=
  let cf : CachedFrame := ⟨normalizeStreamData body now, now⟩
  let lf := alSet st.latestFrames body.deviceId cf
  let ad :=
    if (alGet st.activeDevices body.deviceId).isSome then
      alUpdate st.activeDevices body.deviceId fun i =>
        { i with lastSeen := now, status := body.stats }
    else
      alSet st.activeDevices body.deviceId
        { socketId := none, connectedAt := now, lastSeen := now,
          status := body.stats }
  let emits :=
    [⟨.all, "liveStream", .cached cf⟩]
    ++ (match body.detections with
        | some l =>
          if l.isEmpty then []
          else [⟨.all, "liveDetections",
                  .liveDets ⟨body.deviceId, l, body.gps, body.timestamp, none⟩⟩]
        | none => [])
  ({ st with latestFrames := lf, activeDevices := ad }, emits,
   ⟨true, (body.detections.getD []).length⟩)

/-- GET /api/live/devices: every registry entry, annotated with
`isActive = (now - lastSeen) < 30000`; nothing is excluded or removed. -/
def getDevicesRoute (st : ServerState) (now : Nat) : List DevicesRouteEntry :=
  st.activeDevices.map fun p =>
    ⟨p.1, p.2.socketId, p.2.connectedAt, p.2.lastSeen,
     decide (now - p.2.lastSeen < 30000), p.2.status⟩

/-- GET /api/live/status: every registry entry, no liveness computation. -/
def getStatusRoute (st : ServerState) : List DeviceEntry :=
  st.activeDevices.map fun p =>
    ⟨p.1, p.2.socketId, p.2.connectedAt, p.2.lastSeen, p.2.status⟩

/-- A `PotholeDetection` document as constructed by the persisting server
variant and transformed by the mongoose pre-save hook. -/
structure DetectionRecord where
  detectionId : String
  deviceId : Option String
  type : String
  severity : String
  confidence : Nat
  gps : Gps
  boundingBox : Option BBox
  location : Option String
  detectedAt : Nat
deriving DecidableEq

/-- The location string derived from GPS coordinates. The JS code formats with
`toFixed(4)`; the string is treated opaquely everywhere, so plain integer
printing stands in for that formatting. -/
def gpsLocString (g : Gps) : String :=
  "GPS: " ++ toString g.latitude ++ ", " ++ toString g.longitude

/-- The fixed synonym table normalizing producer-supplied category labels
(`TYPE_MAPPING` in `backend/models/PotholeDetection.js` and
`backend/routes/detections.js`). -/
def TYPE_MAPPING : String → Option String
  | "Pothole" => some "Severe Pothole"
  | "pothole" => some "Severe Pothole"
  | "Crack" => some "Asphalt Crack"
  | "crack" => some "Asphalt Crack"
  | "Damage" => some "Surface Damage"
  | "damage" => some "Surface Damage"
  | _ => none

/-- Category normalization: the synonym-table image when the label is a known
synonym, the label itself otherwise. -/
def normType (t : String) : String :=
  (TYPE_MAPPING t).getD t

/-- The `new PotholeDetection({...})` document built for one detection inside
the persisting `liveStream` handler:
`detectionId` is deviceId + "-" + Date.now() + "-" + random suffix;
`type`, `severity`, `confidence` default via JS `||`;
`gps` defaults to `{latitude: 0, longitude: 0}`;
`location` is the GPS string when `data.gps` is present, else null;
`detectedAt` is `new Date(data.timestamp || Date.now())`. -/
def mkDetectionRecord (key : Option String) (now : Nat) (rand : String)
    (data : StreamData) (det : Detection) : DetectionRecord :=
  { detectionId := keyStr key ++ "-" ++ toString now ++ "-" ++ rand,
    deviceId := key,
    type := jsOrStr det.type "Surface Damage",
    severity := jsOrStr det.severity "medium",
    confidence := det.confidence.getD 0,
    gps := data.gps.getD ⟨0, 0⟩,
    boundingBox := det.boundingBox,
    location := data.gps.map gpsLocString,
    detectedAt := jsOrN data.timestamp now }

/-- The mongoose `pre('save')` hook of `PotholeDetection`: maps the type
through the synonym table when it is a known synonym, and auto-generates the
location from GPS when the location is falsy and both coordinates are
truthy (nonzero). -/
def preSave (r : DetectionRecord) : DetectionRecord :=
  let t :=
    if r.type ≠ "" then
      match TYPE_MAPPING r.type with
      | some m => m
      | none => r.type
    else r.type
  let autoLoc : Option String :=
    if r.gps.latitude ≠ 0 ∧ r.gps.longitude ≠ 0 then some (gpsLocString r.gps)
    else none
  let loc :=
    match r.location with
    | some l => if l = "" then autoLoc else some l
    | none => autoLoc
  { r with type := t, location := loc }

/-- The record as it reaches the durable store: construction followed by the
pre-save hook. -/
def ingestDetection (key : Option String) (now : Nat) (rand : String)
    (data : StreamData) (det : Detection) : DetectionRecord :=
  preSave (mkDetectionRecord key now rand data det)

/-- One step of the persisting `liveStream` handler's observable behaviour:
an outbound emission, an attempted durable write, or an error log. -/
inductive RelayAct where
  | emitA : Emit → RelayAct
  | dbSave : DetectionRecord → RelayAct
  | logError : RelayAct
deriving DecidableEq

/-- The `liveStream` handler of the persisting server variant: same registry
touch and cache write as `liveStream`, then fan-out to the watch room and to
all sockets, then one awaited durable write per detection inside try/catch.
`saveOk` models durable-store availability: when false the first awaited
write throws, the remaining writes and the `liveDetections` emission are
skipped, and the catch block only logs. `rnd i` is the random suffix and
`oid i` the store-generated identifier of the i-th detection. -/
def p4LiveStream (st : ServerState) (sid : Nat) (data : StreamData) (now : Nat)
    (rnd : Nat → String) (oid : Nat → String) (saveOk : Bool) :
    ServerState × List RelayAct :=
  let key := liveStreamKey st sid data
  let ad :=
    if (alGet st.activeDevices key).isSome then
      alUpdate st.activeDevices key fun i => { i with lastSeen := now }
    else st.activeDevices
  let lf := alSet st.latestFrames key ⟨data, now⟩
  let dets := data.detections.getD []
  let acts :=
    [RelayAct.emitA ⟨.room ("watch-" ++ keyStr key), "liveStream", .frameData data⟩,
     RelayAct.emitA ⟨.all, "stream", .frameData data⟩]
    ++ (match dets with
        | [] => []
        | d0 :: _ =>
          if saveOk then
            (dets.enum.map fun p =>
              RelayAct.dbSave (ingestDetection key now (rnd p.1) data p.2))
            ++ [RelayAct.emitA ⟨.room ("watch-" ++ keyStr key), "liveDetections",
                  .liveDets ⟨key, dets, data.gps, data.timestamp,
                    some (dets.enum.map fun p => oid p.1)⟩⟩]
          else
            [RelayAct.dbSave (ingestDetection key now (rnd 0) data d0),
             RelayAct.logError])
  ({ st with activeDevices := ad, latestFrames := lf }, acts)

/-- The two frame-relay emissions of the persisting `liveStream` handler. -/
def p4FanOut (key : Option String) (data : StreamData) : List RelayAct :=
  [RelayAct.emitA ⟨.room ("watch-" ++ keyStr key), "liveStream", .frameData data⟩,
   RelayAct.emitA ⟨.all, "stream", .frameData data⟩]

/- Concrete fixtures used by counterexamples and witnesses. -/

/-- A producer socket 1 registered for "d1" and a viewer socket 2 whose only
room is `watch-d2`. -/
def c1State : ServerState :=
  { activeDevices := [(some "d1", ⟨some 1, 0, 0, none⟩)],
    latestFrames := [],
    sockets := [(1, ⟨some "d1", ["device-d1"]⟩), (2, ⟨none, ["watch-d2"]⟩)] }

/-- A frame from device "d1". -/
def c1Frame : StreamData := ⟨some "d1", some ⟨5⟩, none, none, none, none⟩

/-- Producer socket 1 registered for "d", viewer socket 2. -/
def c2State : ServerState :=
  ⟨[], [], [(1, ⟨some "d", ["device-d"]⟩), (2, ⟨none, []⟩)]⟩

/-- A frame from device "d". -/
def c2Frame : StreamData := ⟨some "d", some ⟨7⟩, none, none, none, some 3⟩

/-- Empty server state. -/
def c3State : ServerState := ⟨[], [], []⟩

/-- First frame for device "d". -/
def c3e1 : StreamData := ⟨some "d", some ⟨1⟩, none, none, none, none⟩

/-- Second frame for device "d". -/
def c3e2 : StreamData := ⟨some "d", some ⟨2⟩, none, none, none, none⟩

/-- Two fresh connections, no registrations yet. -/
def c4s0 : ServerState := ⟨[], [], [(1, ⟨none, []⟩), (2, ⟨none, []⟩)]⟩

/-- A frame for device "d". -/
def c4Frame : StreamData := ⟨some "d", some ⟨3⟩, none, none, none, none⟩

/-- Device "d" registered on socket 1, then re-registered on socket 2. -/
def c4st2 : ServerState := (registerDevice (registerDevice c4s0 1 "d" 10).1 2 "d" 20).1

/-- The second handle then sends a frame. -/
def c4st3 : ServerState := (liveStream c4st2 2 c4Frame 25).1

/-- The superseded first handle then disconnects. -/
def c4st4 : ServerState := (disconnect c4st3 1 30).1

/-- A viewer watching "UNIT-9" and a viewer watching a different device. -/
def c5State : ServerState :=
  ⟨[], [], [(3, ⟨none, ["watch-UNIT-9"]⟩), (4, ⟨none, ["watch-other"]⟩)]⟩

/-- An 11 MB frame submission: 11534336 = 11 * 1024 * 1024 bytes, above the
spec's 10 MB bound. -/
def c5Body : StreamData := ⟨some "UNIT-9", some ⟨11534336⟩, none, none, none, some 7⟩

/-- The HTTP fallback processing the oversized submission. -/
def c5Run : ServerState × List Emit × HttpResp := postStream c5State c5Body 50

/-- One registered device whose last-seen is 0. -/
def c6State : ServerState := ⟨[(some "d6", ⟨some 1, 0, 0, none⟩)], [], [(3, ⟨none, []⟩)]⟩

/-- One connected socket, no registered devices. -/
def c7State : ServerState := ⟨[], [], [(1, ⟨none, []⟩)]⟩

/-- A frame from the never-registered device "UNIT-7". -/
def c7Frame : StreamData := ⟨some "UNIT-7", some ⟨3⟩, none, none, none, some 2⟩

/-- Device "U" registered with telemetry-bearing session. -/
def c7wState : ServerState :=
  ⟨[(some "U", ⟨some 1, 2, 3, none⟩)], [], [(1, ⟨some "U", []⟩)]⟩

/-- A frame from registered device "U". -/
def c7wFrame : StreamData := ⟨some "U", some ⟨4⟩, none, none, some "telemetry", some 6⟩

/-- One detection as the producer sends it. -/
def c8Det : Detection := ⟨some "Pothole", some "high", some 91, none⟩

/-- A frame from "UNIT-1" carrying one detection. -/
def c8Frame : StreamData := ⟨some "UNIT-1", some ⟨9⟩, some [c8Det], none, none, some 4⟩

/-- Empty server state for the persistence claim. -/
def c8State : ServerState := ⟨[], [], []⟩

/-- A detection with missing severity and confidence and a synonym type. -/
def c9Det : Detection := ⟨some "Pothole", none, none, none⟩

/-- The frame carrying that detection. -/
def c9Data : StreamData := ⟨some "UNIT-1", some ⟨2⟩, some [c9Det], none, none, some 8⟩

/-- Socket 1 registered as device "dA". -/
def c10State : ServerState :=
  ⟨[(some "dA", ⟨some 1, 0, 0, none⟩)], [], [(1, ⟨some "dA", ["device-dA"]⟩)]⟩

/-- A message whose deviceId field is present but empty. -/
def c10Frame : StreamData := ⟨some "", some ⟨1⟩, none, none, none, none⟩

/-- A message naming "dA" explicitly (sent from an unrelated socket). -/
def c10wFrame : StreamData := ⟨some "dA", some ⟨2⟩, none, none, none, none⟩

/-- A message with no deviceId field. -/
def c10nFrame : StreamData := ⟨none, some ⟨3⟩, none, none, none, none⟩

/- Helper lemmas about the association-list operations. -/

theorem alGet_alSet_self {α β : Type} [DecidableEq α] (l : List (α × β)) (a : α)
    (b : β) : alGet (alSet l a b) a = some b := by
  induction l with
  | nil => simp [alSet, alGet]
  | cons p rest ih =>
    obtain ⟨k, v⟩ := p
    by_cases h : k = a
    · simp [alSet, alGet, h]
    · simp [alSet, alGet, h, ih]

theorem alGet_alDel_self {α β : Type} [DecidableEq α] (l : List (α × β)) (a : α) :
    alGet (alDel l a) a = none := by
  induction l with
  | nil => simp [alDel, alGet]
  | cons p rest ih =>
    obtain ⟨k, v⟩ := p
    by_cases h : k = a
    · simp [alDel, alGet, h, ih]
    · simp [alDel, alGet, h, ih]

theorem alGet_alUpdate_get {α β : Type} [DecidableEq α] {l : List (α × β)} {a : α}
    {b : β} (f : β → β) (h : alGet l a = some b) :
    alGet (alUpdate l a f) a = some (f b) := by
  induction l with
  | nil => simp [alGet] at h
  | cons p rest ih =>
    obtain ⟨k, v⟩ := p
    by_cases hk : k = a
    · simp [alGet, hk] at h
      simp [alUpdate, alGet, hk, h]
    · simp [alGet, hk] at h
      simp [alUpdate, alGet, hk, ih h]

theorem alGet_alUpdate_ne {α β : Type} [DecidableEq α] (l : List (α × β))
    (a a' : α) (f : β → β) (h : a' ≠ a) :
    alGet (alUpdate l a f) a' = alGet l a' := by
  induction l with
  | nil => simp [alUpdate, alGet]
  | cons p rest ih =>
    obtain ⟨k, v⟩ := p
    by_cases hk : k = a
    · subst hk
      simp [alUpdate, alGet, Ne.symm h, ih]
    · by_cases hk' : k = a'
      · simp [alUpdate, alGet, hk, hk', h, ih]
      · simp [alUpdate, alGet, hk, hk', ih]

theorem countKey_cons {α β : Type} [DecidableEq α] (k : α) (v : β)
    (rest : List (α × β)) (a : α) :
    countKey ((k, v) :: rest) a = countKey rest a + (if k = a then 1 else 0) := by
  simp [countKey, List.countP_cons]

theorem countKey_alSet {α β : Type} [DecidableEq α] (l : List (α × β)) (a : α)
    (b : β) :
    countKey (alSet l a b) a = if countKey l a = 0 then 1 else countKey l a := by
  induction l with
  | nil => simp [alSet, countKey, List.countP_cons]
  | cons p rest ih =>
    obtain ⟨k, v⟩ := p
    by_cases h : k = a
    · subst h
      rw [show alSet ((k, v) :: rest) k b = (k, b) :: rest from by simp [alSet],
          countKey_cons, countKey_cons]
      simp
    · rw [show alSet ((k, v) :: rest) a b = (k, v) :: alSet rest a b from by
            simp [alSet, h],
          countKey_cons, countKey_cons, if_neg h]
      simpa using ih

theorem jsOrS_some_ne {s : String} (b : Option String) (h : s ≠ "") :
    jsOrS (some s) b = some s := by
  simp [jsOrS, h]

theorem liveStreamKey_of_some (st : ServerState) (sid : Nat)
    (data : StreamData) {d : String} (hdev : data.deviceId = some d) (hne : d ≠ "") :
    liveStreamKey st sid data = some d := by
  simp [liveStreamKey, hdev, jsOrS, hne]

/-- C1: counterexample. In `c1State` the only subscription of viewer socket 2
is the watch room for device "d2", yet when socket 1 relays a frame for
device "d1" through the `liveStream` handler, an emission of event
`liveStream` is delivered to socket 2 (via `socket.broadcast.emit`), so the
frame is not confined to the watch room for "d1" and "all"-subscribers. -/
theorem C1_counterexample :
    ((liveStream c1State 1 c1Frame 100).2.any fun e =>
        decide (e.event = "liveStream") && deliveredTo c1State.sockets e 2) = true
    ∧ (alGet c1State.sockets 2).map SocketSt.rooms = some ["watch-d2"]
    ∧ c1Frame.deviceId = some "d1" := by
  decide

/-- C1 (amended): the socket `liveStream` handler relays every frame both to
the `watch-` room of its device and, via `socket.broadcast.emit`, to every
other connected socket — so every connected viewer other than the sender
receives the frame, regardless of its subscriptions. -/
theorem C1_amended_broadcast (st : ServerState) (sid : Nat) (data : StreamData)
    (now w : Nat) (s : SocketSt) (hw : alGet st.sockets w = some s)
    (hne : w ≠ sid) :
    ∃ e ∈ (liveStream st sid data now).2,
      e.event = "liveStream" ∧ deliveredTo st.sockets e w = true := by
  refine ⟨⟨.broadcastFrom sid, "liveStream", .frameData data⟩, ?_, rfl, ?_⟩
  · simp [liveStream]
  · simp [deliveredTo, hw, hne]

/-- C1 (amended), witness: the amended statement at the concrete fixture. -/
theorem C1_amended_broadcast_witness :
    ∃ e ∈ (liveStream c1State 1 c1Frame 100).2,
      e.event = "liveStream" ∧ deliveredTo c1State.sockets e 2 = true :=
  C1_amended_broadcast c1State 1 c1Frame 100 2 ⟨none, ["watch-d2"]⟩
    (by decide) (by decide)

/-- C2: after a frame for device d is relayed, a viewer subscribing to d via
`watchDevice` immediately receives exactly one emission — the cached envelope
holding that frame — addressed to that socket alone; when no frame for d was
ever cached, `watchDevice` emits nothing; and a `socket.emit`-targeted
emission is delivered only to its target socket. -/
theorem C2_catchup :
    (∀ (st : ServerState) (sid v : Nat) (d : String) (data : StreamData)
        (now : Nat), data.deviceId = some d → d ≠ "" →
      (watchDevice (liveStream st sid data now).1 v d).2
        = [⟨.sock v, "liveStream", .cached ⟨data, now⟩⟩])
    ∧ (∀ (st : ServerState) (v : Nat) (d : String),
        alGet st.latestFrames (some d) = none → (watchDevice st v d).2 = [])
    ∧ (∀ (socks : List (Nat × SocketSt)) (v : Nat) (ev : String) (p : Payload)
        (w : Nat), deliveredTo socks ⟨.sock v, ev, p⟩ w = true → w = v) := by
  refine ⟨?_, ?_, ?_⟩
  · intro st sid v d data now hdev hne
    have hkey := liveStreamKey_of_some st sid data hdev hne
    simp [watchDevice, liveStream, hkey, alGet_alSet_self]
  · intro st v d h
    simp [watchDevice, h]
  · intro socks v ev p w h
    simpa [deliveredTo] using h

/-- C2, witness: the catch-up delivery at the concrete fixture. -/
theorem C2_catchup_witness :
    (watchDevice (liveStream c2State 1 c2Frame 100).1 2 "d").2
      = [⟨.sock 2, "liveStream", .cached ⟨c2Frame, 100⟩⟩]
    ∧ (watchDevice c2State 2 "unseen").2 = []
    ∧ (2 : Nat) = 2 :=
  ⟨C2_catchup.1 c2State 1 2 "d" c2Frame 100 rfl (by decide),
   C2_catchup.2.1 c2State 2 "unseen" (by decide),
   C2_catchup.2.2 c2State.sockets 2 "liveStream" (.cached ⟨c2Frame, 100⟩) 2
     (by decide)⟩

/-- C3: last-write-wins — relaying frame e1 then frame e2 for the same device
d leaves exactly e2 (with the second receipt timestamp) in the frame cache
under d; `alSet` overwrites unconditionally. -/
theorem C3_last_write_wins (st : ServerState) (sid1 sid2 : Nat) (d : String)
    (e1 e2 : StreamData) (t1 t2 : Nat)
    (h1 : e1.deviceId = some d) (h2 : e2.deviceId = some d) (hne : d ≠ "") :
    alGet ((liveStream (liveStream st sid1 e1 t1).1 sid2 e2 t2).1).latestFrames
      (some d) = some ⟨e2, t2⟩ := by
  have k1 := liveStreamKey_of_some st sid1 e1 h1 hne
  have k2 : ∀ st' : ServerState, liveStreamKey st' sid2 e2 = some d :=
    fun st' => liveStreamKey_of_some st' sid2 e2 h2 hne
  simp [liveStream, k1, k2, alGet_alSet_self]

/-- C3, witness: last-write-wins at the concrete fixture. -/
theorem C3_last_write_wins_witness :
    alGet ((liveStream (liveStream c3State 5 c3e1 1).1 6 c3e2 2).1).latestFrames
      (some "d") = some ⟨c3e2, 2⟩ :=
  C3_last_write_wins c3State 5 6 "d" c3e1 c3e2 1 2 rfl rfl (by decide)

/-- C4: counterexample. Registering device "d" on socket 1 and then on
socket 2 does bind the single session to socket 2, but the superseded first
handle is not stale: when socket 1 later disconnects, the handler deletes
"d"'s registry entry and cached frame even though the session belongs to
socket 2 — refuting "broker operations (including its later disconnect)
never affect the second handle's session or d's cached frame". -/
theorem C4_counterexample :
    alGet c4st2.activeDevices (some "d") = some ⟨some 2, 20, 20, none⟩
    ∧ alGet c4st3.latestFrames (some "d") = some ⟨c4Frame, 25⟩
    ∧ alGet c4st4.activeDevices (some "d") = none
    ∧ alGet c4st4.latestFrames (some "d") = none := by
  decide

/-- C4 (amended): registering d twice with different handles leaves exactly
one registry entry for d, bound to the second handle; but the first handle
keeps `socket.deviceId = d`, so its later disconnect removes d's session and
cached frame. -/
theorem C4_supersession_amended (st : ServerState) (s1 s2 : Nat) (d : String)
    (t1 t2 t3 : Nat) (sk1 : SocketSt)
    (hcount : countKey st.activeDevices (some d) ≤ 1)
    (hs1 : alGet st.sockets s1 = some sk1) (hne : s1 ≠ s2) :
    alGet ((registerDevice (registerDevice st s1 d t1).1 s2 d t2).1).activeDevices
        (some d) = some ⟨some s2, t2, t2, none⟩
    ∧ countKey ((registerDevice (registerDevice st s1 d t1).1 s2 d t2).1).activeDevices
        (some d) = 1
    ∧ alGet ((disconnect ((registerDevice (registerDevice st s1 d t1).1 s2 d t2).1)
        s1 t3).1).activeDevices (some d) = none
    ∧ alGet ((disconnect ((registerDevice (registerDevice st s1 d t1).1 s2 d t2).1)
        s1 t3).1).latestFrames (some d) = none := by
  have hsock : alGet ((registerDevice (registerDevice st s1 d t1).1 s2 d t2).1).sockets
      s1 = some { sk1 with deviceId := some d
                           rooms := addRoom sk1.rooms ("device-" ++ d) } := by
    simp only [registerDevice]
    rw [alGet_alUpdate_ne _ _ _ _ hne]
    exact alGet_alUpdate_get _ hs1
  have hdev : socketDeviceId
      ((registerDevice (registerDevice st s1 d t1).1 s2 d t2).1) s1 = some d := by
    rw [socketDeviceId, hsock]
    rfl
  have hcnt : countKey ((registerDevice (registerDevice st s1 d t1).1
      s2 d t2).1).activeDevices (some d) = 1 := by
    simp only [registerDevice]
    have c1 : countKey (alSet st.activeDevices (some d)
        ⟨some s1, t1, t1, none⟩) (some d) = 1 := by
      rw [countKey_alSet]
      by_cases h0 : countKey st.activeDevices (some d) = 0
      · rw [if_pos h0]
      · rw [if_neg h0]; omega
    rw [countKey_alSet, c1]
    simp
  refine ⟨?_, hcnt, ?_, ?_⟩
  · simp [registerDevice, alGet_alSet_self]
  · simp [disconnect, hdev, alGet_alDel_self]
  · simp [disconnect, hdev, alGet_alDel_self]

/-- C4 (amended), witness: the amended statement at the concrete fixture. -/
theorem C4_supersession_amended_witness :
    alGet ((registerDevice (registerDevice c4s0 1 "d" 10).1 2 "d" 20).1).activeDevices
        (some "d") = some ⟨some 2, 20, 20, none⟩
    ∧ countKey ((registerDevice (registerDevice c4s0 1 "d" 10).1 2 "d" 20).1).activeDevices
        (some "d") = 1
    ∧ alGet ((disconnect ((registerDevice (registerDevice c4s0 1 "d" 10).1 2 "d" 20).1)
        1 30).1).activeDevices (some "d") = none
    ∧ alGet ((disconnect ((registerDevice (registerDevice c4s0 1 "d" 10).1 2 "d" 20).1)
        1 30).1).latestFrames (some "d") = none :=
  C4_supersession_amended c4s0 1 2 "d" 10 20 30 ⟨none, []⟩
    (by decide) (by decide) (by decide)

/-- C5: counterexample. An 11 MB submission (11534336 bytes, above the spec's
10 MB bound) through POST /api/live/stream is not rejected: the response is
success, the frame cache is updated for "UNIT-9", and a `liveStream` emission
is delivered even to a viewer watching a different device — refuting both the
rejection and the no-cache-update/no-broadcast consequences. -/
theorem C5_counterexample :
    c5Body.frame = some ⟨11534336⟩
    ∧ c5Run.2.2.success = true
    ∧ alGet c5Run.1.latestFrames (some "UNIT-9")
        = some ⟨normalizeStreamData c5Body 50, 50⟩
    ∧ (c5Run.2.1.any fun e =>
        decide (e.event = "liveStream") && deliveredTo c5State.sockets e 4) = true := by
  decide

/-- C5 (amended): the relay performs no application-level validation — every
POST /api/live/stream submission, regardless of payload size or device
identifier, succeeds, overwrites the frame cache under its (possibly
undefined) deviceId, and broadcasts the frame to all sockets. -/
theorem C5_no_validation (st : ServerState) (body : StreamData) (now : Nat) :
    (postStream st body now).2.2.success = true
    ∧ alGet (postStream st body now).1.latestFrames body.deviceId
        = some ⟨normalizeStreamData body now, now⟩
    ∧ (⟨.all, "liveStream", .cached ⟨normalizeStreamData body now, now⟩⟩ : Emit)
        ∈ (postStream st body now).2.1 := by
  refine ⟨rfl, ?_, ?_⟩
  · simp [postStream, alGet_alSet_self]
  · simp [postStream]

/-- C6: counterexample. Device "d6" has last-seen 0; queried at time 31000
(31 s later, outside the 30-second liveness window) it still appears in all
three listings — GET /api/live/devices (annotated `isActive = false` rather
than excluded), the socket `getActiveDevices` reply, and GET
/api/live/status — refuting that stale sessions are excluded. -/
theorem C6_counterexample :
    ((getDevicesRoute c6State 31000).any fun e => decide (e.deviceId = some "d6")) = true
    ∧ ((getDevicesRoute c6State 31000).any fun e =>
        decide (e.deviceId = some "d6") && e.isActive) = false
    ∧ ((activeDevicesPayload c6State).any fun e => decide (e.deviceId = some "d6")) = true
    ∧ ((getStatusRoute c6State).any fun e => decide (e.deviceId = some "d6")) = true
    ∧ getActiveDevices c6State 3
        = [⟨.sock 3, "activeDevices", .deviceList (activeDevicesPayload c6State)⟩]
    ∧ alGet c6State.activeDevices (some "d6") = some ⟨some 1, 0, 0, none⟩ := by
  decide

/-- C6 (amended): every registered session appears in all three listings
regardless of its last-seen timestamp; GET /api/live/devices annotates each
entry with `isActive = (now - lastSeen) < 30000` instead of excluding stale
ones; the listings are pure and remove nothing. -/
theorem C6_listings_amended (st : ServerState) (now : Nat)
    (k : Option String) (v : DeviceInfo) (h : (k, v) ∈ st.activeDevices) :
    (⟨k, v.socketId, v.connectedAt, v.lastSeen,
        decide (now - v.lastSeen < 30000), v.status⟩ : DevicesRouteEntry)
      ∈ getDevicesRoute st now
    ∧ (⟨k, v.socketId, v.connectedAt, v.lastSeen, v.status⟩ : DeviceEntry)
      ∈ activeDevicesPayload st
    ∧ (⟨k, v.socketId, v.connectedAt, v.lastSeen, v.status⟩ : DeviceEntry)
      ∈ getStatusRoute st :=
  ⟨List.mem_map_of_mem _ h, List.mem_map_of_mem _ h, List.mem_map_of_mem _ h⟩

/-- C6 (amended), witness: the amended statement at the concrete fixture,
for the stale session of `c6State` queried at 31000. -/
theorem C6_listings_amended_witness :
    (⟨some "d6", some 1, 0, 0, decide ((31000 : Nat) - 0 < 30000), none⟩ :
        DevicesRouteEntry) ∈ getDevicesRoute c6State 31000
    ∧ (⟨some "d6", some 1, 0, 0, none⟩ : DeviceEntry)
        ∈ activeDevicesPayload c6State
    ∧ (⟨some "d6", some 1, 0, 0, none⟩ : DeviceEntry) ∈ getStatusRoute c6State :=
  C6_listings_amended c6State 31000 (some "d6") ⟨some 1, 0, 0, none⟩ (by decide)

/-- C7: counterexample. The same frame from the never-registered device
"UNIT-7", processed once through the socket `liveStream` handler and once
through POST /api/live/stream, yields different registry states: the socket
path leaves the device unregistered while the HTTP path creates a session —
refuting "the same registry and cache state results". -/
theorem C7_counterexample :
    alGet ((liveStream c7State 1 c7Frame 40).1).activeDevices (some "UNIT-7") = none
    ∧ (alGet ((postStream c7State c7Frame 40).1).activeDevices
        (some "UNIT-7")).isSome = true := by
  decide

/-- C7 (amended): the two transports agree only partially — for a device
already registered, both refresh its last-seen to now and both overwrite the
cache under the same key; but the HTTP path additionally stores the message's
telemetry in the session and caches a normalized copy of the body, while the
socket path caches the raw data, and (per C7's counterexample) only the HTTP
path registers unknown devices. -/
theorem C7_transport_amended (st : ServerState) (sid : Nat) (body : StreamData)
    (now : Nat) (d : String) (info : DeviceInfo)
    (hdev : body.deviceId = some d) (hne : d ≠ "")
    (hreg : alGet st.activeDevices (some d) = some info) :
    alGet ((liveStream st sid body now).1).activeDevices (some d)
        = some { info with lastSeen := now }
    ∧ alGet ((postStream st body now).1).activeDevices (some d)
        = some { info with lastSeen := now, status := body.stats }
    ∧ alGet ((liveStream st sid body now).1).latestFrames (some d)
        = some ⟨body, now⟩
    ∧ alGet ((postStream st body now).1).latestFrames (some d)
        = some ⟨normalizeStreamData body now, now⟩ := by
  have hkey := liveStreamKey_of_some st sid body hdev hne
  have hup1 := alGet_alUpdate_get (fun i => { i with lastSeen := now }) hreg
  have hup2 := alGet_alUpdate_get
    (fun i => { i with lastSeen := now, status := body.stats }) hreg
  refine ⟨?_, ?_, ?_, ?_⟩
  · simp [liveStream, hkey, hreg, hup1]
  · simp [postStream, hdev, hreg, hup2]
  · simp [liveStream, hkey, alGet_alSet_self]
  · simp [postStream, hdev, alGet_alSet_self]

/-- C7 (amended), witness: the amended statement at the concrete fixture. -/
theorem C7_transport_amended_witness :
    alGet ((liveStream c7wState 9 c7wFrame 100).1).activeDevices (some "U")
        = some ⟨some 1, 2, 100, none⟩
    ∧ alGet ((postStream c7wState c7wFrame 100).1).activeDevices (some "U")
        = some ⟨some 1, 2, 100, some "telemetry"⟩
    ∧ alGet ((liveStream c7wState 9 c7wFrame 100).1).latestFrames (some "U")
        = some ⟨c7wFrame, 100⟩
    ∧ alGet ((postStream c7wState c7wFrame 100).1).latestFrames (some "U")
        = some ⟨normalizeStreamData c7wFrame 100, 100⟩ :=
  C7_transport_amended c7wState 9 c7wFrame 100 "U" ⟨some 1, 2, 3, none⟩
    rfl (by decide) (by decide)

/-- C8: in the persisting `liveStream` handler, the resulting server state is
identical whether or not the durable store is available; the first two
actions are always the two frame-relay emissions (watch room, then io-wide),
so viewer fan-out of the frame completes before any durable write is
attempted; and when detections are present and the store is unavailable, the
remaining actions are exactly one attempted write followed by an error log —
no retry, no further emissions. -/
theorem C8_persistence_nonblocking (st : ServerState) (sid : Nat)
    (data : StreamData) (now : Nat) (rnd oid : Nat → String) :
    ((p4LiveStream st sid data now rnd oid false).1
        = (p4LiveStream st sid data now rnd oid true).1)
    ∧ (∀ b, (p4LiveStream st sid data now rnd oid b).2.take 2
        = p4FanOut (liveStreamKey st sid data) data)
    ∧ ((data.detections.getD []) ≠ [] →
        ∃ r, (p4LiveStream st sid data now rnd oid false).2.drop 2
          = [RelayAct.dbSave r, RelayAct.logError]) := by
  refine ⟨rfl, ?_, ?_⟩
  · intro b
    cases hd : data.detections.getD [] with
    | nil => simp [p4LiveStream, p4FanOut, hd]
    | cons d0 tl => cases b <;> simp [p4LiveStream, p4FanOut, hd]
  · intro h
    cases hd : data.detections.getD [] with
    | nil => exact absurd hd h
    | cons d0 tl =>
      exact ⟨ingestDetection (liveStreamKey st sid data) now (rnd 0) data d0,
        by simp [p4LiveStream, hd]⟩

/-- C8, witness: the statement at the concrete fixture carrying one
detection. -/
theorem C8_persistence_nonblocking_witness :
    ((p4LiveStream c8State 1 c8Frame 5 (fun _ => "r") (fun _ => "x") false).1
        = (p4LiveStream c8State 1 c8Frame 5 (fun _ => "r") (fun _ => "x") true).1)
    ∧ ((p4LiveStream c8State 1 c8Frame 5 (fun _ => "r") (fun _ => "x") true).2.take 2
        = p4FanOut (liveStreamKey c8State 1 c8Frame) c8Frame)
    ∧ ∃ r, (p4LiveStream c8State 1 c8Frame 5 (fun _ => "r") (fun _ => "x") false).2.drop 2
        = [RelayAct.dbSave r, RelayAct.logError] :=
  ⟨(C8_persistence_nonblocking c8State 1 c8Frame 5 (fun _ => "r") (fun _ => "x")).1,
   (C8_persistence_nonblocking c8State 1 c8Frame 5 (fun _ => "r") (fun _ => "x")).2.1 true,
   (C8_persistence_nonblocking c8State 1 c8Frame 5 (fun _ => "r") (fun _ => "x")).2.2
     (by decide)⟩

/-- C9: the stored detection record has identifier deviceId + "-" + arrival
timestamp + "-" + random suffix; its category is the producer label (default
"Surface Damage") normalized through the fixed synonym table by the pre-save
hook; a missing severity defaults to "medium"; a missing confidence defaults
to 0. -/
theorem C9_ingest_record (key : Option String) (now : Nat) (rand : String)
    (data : StreamData) (det : Detection) :
    (ingestDetection key now rand data det).detectionId
        = keyStr key ++ "-" ++ toString now ++ "-" ++ rand
    ∧ (ingestDetection key now rand data det).type
        = normType (jsOrStr det.type "Surface Damage")
    ∧ (ingestDetection key now rand data det).severity
        = jsOrStr det.severity "medium"
    ∧ (det.severity = none →
        (ingestDetection key now rand data det).severity = "medium")
    ∧ (ingestDetection key now rand data det).confidence = det.confidence.getD 0
    ∧ (det.confidence = none →
        (ingestDetection key now rand data det).confidence = 0) := by
  have ht : jsOrStr det.type "Surface Damage" ≠ "" := by
    cases det.type with
    | none => simp [jsOrStr]
    | some s => by_cases hs : s = "" <;> simp [jsOrStr, hs]
  refine ⟨?_, ?_, ?_, ?_, ?_, ?_⟩
  · simp [ingestDetection, preSave, mkDetectionRecord]
  · simp only [ingestDetection, preSave, mkDetectionRecord]
    simp only [ht, if_true, ne_eq, not_false_eq_true]
    cases hTM : TYPE_MAPPING (jsOrStr det.type "Surface Damage") <;>
      simp [normType, hTM]
  · simp [ingestDetection, preSave, mkDetectionRecord]
  · intro h
    simp [ingestDetection, preSave, mkDetectionRecord, h, jsOrStr]
  · simp [ingestDetection, preSave, mkDetectionRecord]
  · intro h
    simp [ingestDetection, preSave, mkDetectionRecord, h]

/-- C9, witness: the statement at the concrete detection with missing
severity and confidence and the synonym label "Pothole". -/
theorem C9_ingest_record_witness :
    c9Det.severity = none
    ∧ (ingestDetection (some "UNIT-1") 8 "abc" c9Data c9Det).severity = "medium"
    ∧ c9Det.confidence = none
    ∧ (ingestDetection (some "UNIT-1") 8 "abc" c9Data c9Det).confidence = 0 :=
  ⟨rfl,
   (C9_ingest_record (some "UNIT-1") 8 "abc" c9Data c9Det).2.2.2.1 rfl,
   rfl,
   (C9_ingest_record (some "UNIT-1") 8 "abc" c9Data c9Det).2.2.2.2.2 rfl⟩

/-- C10: counterexample. A `liveStream` message whose deviceId field is
present but the empty string still falls back to the sending socket's
registered identifier ("dA"): the cache is updated under "dA" and nothing is
stored under "" — refuting that the fallback happens only when the field is
absent. -/
theorem C10_counterexample :
    c10Frame.deviceId = some ""
    ∧ alGet ((liveStream c10State 1 c10Frame 9).1).latestFrames (some "dA")
        = some ⟨c10Frame, 9⟩
    ∧ alGet ((liveStream c10State 1 c10Frame 9).1).latestFrames (some "") = none := by
  decide

/-- C10 (amended): the broker keys each `liveStream` message by its own
deviceId field whenever that field is present and non-empty — so any socket,
registered or not, that names a device overwrites that device's cached frame
and (when the device is registered) its last-seen timestamp — and falls back
to the sending socket's registered identifier when the field is absent (or
empty, by JS falsiness). -/
theorem C10_key_selection_amended :
    (∀ (st : ServerState) (sid : Nat) (data : StreamData) (now : Nat) (d : String),
      data.deviceId = some d → d ≠ "" →
      alGet ((liveStream st sid data now).1).latestFrames (some d) = some ⟨data, now⟩
      ∧ ∀ info : DeviceInfo, alGet st.activeDevices (some d) = some info →
          alGet ((liveStream st sid data now).1).activeDevices (some d)
            = some { info with lastSeen := now })
    ∧ (∀ (st : ServerState) (sid : Nat) (data : StreamData) (now : Nat),
        data.deviceId = none →
        ((liveStream st sid data now).1).latestFrames
          = alSet st.latestFrames (socketDeviceId st sid) ⟨data, now⟩) := by
  constructor
  · intro st sid data now d hdev hne
    have hkey := liveStreamKey_of_some st sid data hdev hne
    constructor
    · simp [liveStream, hkey, alGet_alSet_self]
    · intro info hreg
      have hup := alGet_alUpdate_get (fun i => { i with lastSeen := now }) hreg
      simp [liveStream, hkey, hreg, hup]
  · intro st sid data now hdev
    simp [liveStream, liveStreamKey, hdev, jsOrS]

/-- C10 (amended), witness: a message naming "dA" from unrelated socket 99
overwrites "dA"'s cache and last-seen; a message with no deviceId falls back
to the sending socket's registered identifier. -/
theorem C10_key_selection_amended_witness :
    alGet ((liveStream c10State 99 c10wFrame 11).1).latestFrames (some "dA")
        = some ⟨c10wFrame, 11⟩
    ∧ alGet ((liveStream c10State 99 c10wFrame 11).1).activeDevices (some "dA")
        = some ⟨some 1, 0, 11, none⟩
    ∧ ((liveStream c10State 1 c10nFrame 12).1).latestFrames
        = alSet c10State.latestFrames (socketDeviceId c10State 1) ⟨c10nFrame, 12⟩ :=
  ⟨(C10_key_selection_amended.1 c10State 99 c10wFrame 11 "dA" rfl (by decide)).1,
   (C10_key_selection_amended.1 c10State 99 c10wFrame 11 "dA" rfl (by decide)).2
     ⟨some 1, 0, 0, none⟩ (by decide),
   C10_key_selection_amended.2 c10State 1 c10nFrame 12 rfl⟩
